import Mathlib

/-!
Shallow embedding of the mood-based song recommendation service
(backend/main.py): dataset preprocessing, the mood vocabulary, and the two
POST request handlers with their sampling policy.  Strings are modeled as
lists of Unicode code points.  The external classifier and the seeded
pandas sampler are black boxes consumed through narrow interfaces: the
classifier is a parameter returning either a decoded label or an exception
text, and the sampler is a parameter constrained by membership and length
properties (with random_state fixed at 42 it is a pure function of the
pool and the draw size).
-/

namespace MoodRec

/-- Strings, modeled as lists of Unicode code points. -/
abbrev Str := List Nat

/-- Code points of a Lean string literal. -/
def ofStr (s : String) : Str := s.data.map Char.toNat

/-- Whitespace removed by Python str.strip, restricted to the ASCII part
of its table: space and the control characters tab through carriage
return.  The off-ASCII whitespace code points Python also removes are
treated as ordinary characters; no claim in this development depends on
them. -/
def isSpace (c : Nat) : Bool := c == 32 || (9 ≤ c && c ≤ 13)

/-- ASCII-only, one-to-one lowercasing of one code point.  This is the
restriction of Python str.lower to ASCII; the full one-to-many Unicode
casing is modeled separately by lowerCharFull where it matters. -/
def lowerChar (c : Nat) : Nat := if 65 ≤ c ∧ c ≤ 90 then c + 32 else c

/-- ASCII-only uppercasing of one code point. -/
def upperChar (c : Nat) : Nat := if 97 ≤ c ∧ c ≤ 122 then c - 32 else c

/-- Python str.strip: drop leading and trailing whitespace. -/
def pyStrip (s : Str) : Str :=
  ((s.dropWhile isSpace).reverse.dropWhile isSpace).reverse

/-- Python str.lower (ASCII model). -/
def pyLower (s : Str) : Str := s.map lowerChar

/-- Python str.capitalize in the ASCII model: first character uppercased,
all later characters lowercased.  Off ASCII, Python titlecases the first
character with full casing; that behaviour is modeled separately by
pyCapitalizeFull. -/
def pyCapitalize : Str → Str
  | [] => []
  | c :: cs => upperChar c :: cs.map lowerChar

/-- Normalization applied to the dataset mood column at load, main.py
lines 37-43: astype(str) then str.strip, str.lower, str.capitalize. -/
def normalizeDatasetMood (s : Str) : Str := pyCapitalize (pyLower (pyStrip s))

/-- Normalization applied to the user-supplied mood query, main.py line
65: strip then capitalize. -/
def normalizeMoodQuery (s : Str) : Str := pyCapitalize (pyStrip s)

/-- Normalization applied to the decoded classifier label, main.py lines
104-108: strip then capitalize. -/
def normalizeClassifierLabel (s : Str) : Str := pyCapitalize (pyStrip s)

/-- Unicode-aware lowercasing of one code point, modeling the full casing
of Python str.lower at the code points this development distinguishes:
ASCII letters fold as usual, and U+0130, Latin capital letter I with dot
above, lowers to the two code points U+0069 and U+0307 per the Unicode
special-casing table.  Remaining off-ASCII mappings of Python str.lower
are kept fixed here; adding them could only produce further disagreeing
inputs, never remove one. -/
def lowerCharFull (c : Nat) : List Nat :=
  if c = 304 then [105, 775]
  else if 65 ≤ c ∧ c ≤ 90 then [c + 32] else [c]

/-- Python str.lower under full casing: one code point may lower to
several. -/
def pyLowerFull : Str → Str
  | [] => []
  | c :: cs => lowerCharFull c ++ pyLowerFull cs

/-- Titlecasing of one code point, as Python str.capitalize applies to
the first character: on ASCII it agrees with uppercasing, and U+0130 is
its own titlecase. -/
def titleChar (c : Nat) : Nat := if c = 304 then c else upperChar c

/-- Python str.capitalize under full casing: first code point titlecased,
the remainder lowercased. -/
def pyCapitalizeFull : Str → Str
  | [] => []
  | c :: cs => titleChar c :: pyLowerFull cs

/-- The dataset normalization site under the full casing model, main.py
lines 37-43: strip, lower, capitalize. -/
def normalizeDatasetMoodFull (s : Str) : Str :=
  pyCapitalizeFull (pyLowerFull (pyStrip s))

/-- The mood-query normalization site under the full casing model,
main.py line 65: strip then capitalize. -/
def normalizeMoodQueryFull (s : Str) : Str := pyCapitalizeFull (pyStrip s)

/-- The classifier-label normalization site under the full casing model,
main.py lines 104-108: strip then capitalize. -/
def normalizeClassifierLabelFull (s : Str) : Str := pyCapitalizeFull (pyStrip s)

/-- The six audio features, in the feature-column order of main.py.  The
scalar type F is kept abstract: the service never computes on feature
values, it only routes them to the opaque classifier. -/
structure Features (F : Type) where
  valence : F
  danceability : F
  energy : F
  tempo : F
  acousticness : F
  liveness : F
deriving DecidableEq

/-- One dataset record after load and mood normalization. -/
structure Song (F : Type) where
  song_name : Str
  mood : Str
  feats : Features F
deriving DecidableEq

/-- One raw CSV row before preprocessing; a mood cell of none models a
missing or unparseable value, read by pandas as NaN. -/
structure RawRow (F : Type) where
  song_name : Str
  mood? : Option Str
  feats : Features F
deriving DecidableEq

/-- pandas astype(str) on one mood cell: a NaN cell renders as the string
nan. -/
def pyStrOfCell : Option Str → Str
  | none => ofStr "nan"
  | some s => s

/-- Preprocessing of one row, main.py lines 37-43. -/
def loadRow {F : Type} (row : RawRow F) : Song F :=
  ⟨row.song_name, normalizeDatasetMood (pyStrOfCell row.mood?), row.feats⟩

/-- Dataset load: read all rows and normalize the mood column in place. -/
def loadDataset {F : Type} (rows : List (RawRow F)) : List (Song F) :=
  rows.map loadRow

/-- Lexicographic code-point comparison of strings (Python string
ordering used by sorted). -/
def strLe : Str → Str → Bool
  | [], _ => true
  | _ :: _, [] => false
  | x :: xs, y :: ys =>
    if x < y then true else if y < x then false else strLe xs ys

/-- Duplicate removal for the mood vocabulary.  pandas unique keeps first
occurrences while this keeps last ones; after sorting, and for
membership, the two agree. -/
def uniqueMoods : List Str → List Str
  | [] => []
  | x :: xs => if x ∈ xs then uniqueMoods xs else x :: uniqueMoods xs

/-- Insertion into a sorted list of strings. -/
def insertSorted (m : Str) : List Str → List Str
  | [] => [m]
  | x :: xs => if strLe m x then m :: x :: xs else x :: insertSorted m xs

/-- Insertion sort by strLe (Python sorted). -/
def sortStrs : List Str → List Str
  | [] => []
  | x :: xs => insertSorted x (sortStrs xs)

/-- available_moods, main.py line 54: sorted distinct normalized mood
values.  dropna is a no-op because astype(str) leaves no null cells. -/
def availableMoods {F : Type} (df : List (Song F)) : List Str :=
  sortStrs (uniqueMoods (df.map Song.mood))

/-- JSON values as decoded by request.get_json.  Numbers are modeled as
integers; the service never computes on request numbers, it only checks
truthiness and attribute access, which agree with this model. -/
inductive JVal : Type
  | null : JVal
  | bool : Bool → JVal
  | num : Int → JVal
  | str : Str → JVal
  | arr : List JVal → JVal
  | obj : List (Str × JVal) → JVal

/-- Python truthiness of a decoded JSON value. -/
def truthy : JVal → Bool
  | .null => false
  | .bool b => b
  | .num n => n != 0
  | .str s => !s.isEmpty
  | .arr l => !l.isEmpty
  | .obj l => !l.isEmpty

/-- request.get_json with silent set, followed by the or-coercion of
main.py lines 64 and 89: an absent or unparseable body decodes to none
and becomes the empty object, as does any falsy decoded value. -/
def jsonOrEmpty : Option JVal → JVal
  | none => .obj []
  | some v => if truthy v then v else .obj []

/-- The uncaught Python exceptions a handler can raise. -/
inductive PyExn : Type
  | attributeError : PyExn
deriving DecidableEq

/-- dict.get with a default: attribute access fails on a non-dict
value. -/
def dictGet (data : JVal) (key : Str) (dflt : JVal) : Except PyExn JVal :=
  match data with
  | .obj kvs => .ok (((kvs.find? (fun kv => kv.1 == key)).map Prod.snd).getD dflt)
  | _ => .error .attributeError

/-- Extraction of the mood field, main.py lines 64-65: get the field with
default empty string, then strip and capitalize; a non-string field value
has no strip method and raises. -/
def moodInput? (body : Option JVal) : Except PyExn Str :=
  match dictGet (jsonOrEmpty body) (ofStr "mood") (.str []) with
  | .error e => .error e
  | .ok (.str s) => .ok (normalizeMoodQuery s)
  | .ok _ => .error .attributeError

/-- Extraction of the song field, main.py lines 89-90: get the field with
default empty string, then strip. -/
def songInput? (body : Option JVal) : Except PyExn Str :=
  match dictGet (jsonOrEmpty body) (ofStr "song") (.str []) with
  | .error e => .error e
  | .ok (.str s) => .ok (pyStrip s)
  | .ok _ => .error .attributeError

/-- An HTTP response: status code and JSON body. -/
structure HttpResp where
  status : Nat
  body : JVal

/-- jsonify of an error payload. -/
def errBody (msg : Str) : JVal := .obj [(ofStr "error", .str msg)]

/-- A string wrapped in single quotes, code point 39, as produced by the
f-string interpolations of main.py. -/
def quoted (s : Str) : Str := 39 :: (s ++ [39])

def msgMoodRequired : Str := ofStr "Mood is required."

def msgMoodNotFound (m : Str) : Str :=
  ofStr "Mood " ++ quoted m ++ ofStr " not found."

def msgNoSongs (m : Str) : Str :=
  ofStr "No songs found for mood " ++ quoted m ++ ofStr "."

def msgSongRequired : Str := ofStr "Song name is required."

def msgSongNotFound (s : Str) : Str :=
  ofStr "Song " ++ quoted s ++ ofStr " not found."

def msgPredictFailed (e : Str) : Str := ofStr "Prediction failed: " ++ e

def msgNoRecs (m : Str) : Str :=
  ofStr "No recommendations found for mood " ++ quoted m ++ ofStr "."

/-- A sampler models pandas DataFrame.sample with random_state fixed at
42: with the seed fixed it is a pure function of the pool and the draw
size. -/
abbrev Sampler (F : Type) := List (Song F) → Nat → List (Song F)

/-- The candidate pool for a mood query, main.py line 73. -/
def moodPool {F : Type} (df : List (Song F)) (m : Str) : List (Song F) :=
  df.filter (fun s => s.mood == m)

/-- The candidate pool for a song query, main.py lines 112-115: same mood
as predicted and a case-insensitively different song name. -/
def songPool {F : Type} (df : List (Song F)) (predicted q : Str) : List (Song F) :=
  df.filter (fun s => s.mood == predicted && !(pyLower s.song_name == pyLower q))

/-- The matched record for a song query, main.py lines 95 and 101: first
record whose name matches case-insensitively, in original row order. -/
def matchedSong? {F : Type} (df : List (Song F)) (q : Str) : Option (Song F) :=
  (df.filter (fun s => pyLower s.song_name == pyLower q)).head?

/-- count equals the minimum of the unseeded randint draw r and the pool
size, then the pool is sampled with the fixed seed, main.py lines 78-79
and 122-123. -/
def samplingStep {F : Type} (sample : Sampler F) (pool : List (Song F)) (r : Nat) :
    List (Song F) :=
  sample pool (min r pool.length)

/-- Handler of POST requests for recommendation by mood, main.py lines
61-84.  r stands for the unseeded random.randint draw in the range 5 to
8. -/
def recommend_songs_by_mood {F : Type} (sample : Sampler F) (df : List (Song F))
    (r : Nat) (body : Option JVal) : Except PyExn HttpResp :=
  match moodInput? body with
  | .error e => .error e
  | .ok mood_input =>
    if mood_input = [] then
      .ok ⟨400, errBody msgMoodRequired⟩
    else if mood_input ∉ availableMoods df then
      .ok ⟨404, errBody (msgMoodNotFound mood_input)⟩
    else if (moodPool df mood_input).isEmpty then
      .ok ⟨404, errBody (msgNoSongs mood_input)⟩
    else
      .ok ⟨200, .obj [(ofStr "mood", .str mood_input),
        (ofStr "songs", .arr ((samplingStep sample (moodPool df mood_input) r).map
          (fun s => .str s.song_name)))]⟩

/-- Handler of POST requests for recommendation by song, main.py lines
86-129.  predict models model.predict composed with the label decoder on
the feature vector of the matched record; an error value carries the
exception text caught by the try block. -/
def recommend_songs_by_song {F : Type} (sample : Sampler F)
    (predict : Features F → Except Str Str) (df : List (Song F)) (r : Nat)
    (body : Option JVal) : Except PyExn HttpResp :=
  match songInput? body with
  | .error e => .error e
  | .ok song_input =>
    if song_input = [] then
      .ok ⟨400, errBody msgSongRequired⟩
    else
      match matchedSong? df song_input with
      | none => .ok ⟨404, errBody (msgSongNotFound song_input)⟩
      | some song_row =>
        match predict song_row.feats with
        | .error e => .ok ⟨500, errBody (msgPredictFailed e)⟩
        | .ok rawLabel =>
          let predicted_mood := normalizeClassifierLabel rawLabel
          if (songPool df predicted_mood song_input).isEmpty then
            .ok ⟨404, errBody (msgNoRecs predicted_mood)⟩
          else
            .ok ⟨200, .obj [(ofStr "song_input", .str song_input),
              (ofStr "predicted_mood", .str predicted_mood),
              (ofStr "recommendations", .arr
                ((samplingStep sample (songPool df predicted_mood song_input) r).map
                  (fun s => .str s.song_name)))]⟩

/-! Concrete instances used to exhibit runs of the handlers: a sampler
satisfying the interface of the seeded pandas sample, a two-song dataset,
and a classifier stub. -/

/-- A concrete sampler satisfying the sampler interface: take the first k
records of the pool. -/
def sampleTake {F : Type} : Sampler F := fun pool k => pool.take k

/-- A feature vector over the trivial scalar type. -/
def uFeats : Features Unit := ⟨(), (), (), (), (), ()⟩

def songAlpha : Song Unit := ⟨ofStr "Alpha", ofStr "Happy", uFeats⟩

def songBeta : Song Unit := ⟨ofStr "Beta", ofStr "Happy", uFeats⟩

/-- A concrete two-song dataset. -/
def dfW : List (Song Unit) := [songAlpha, songBeta]

/-- A classifier stub that always answers the raw label happy. -/
def predictHappy : Features Unit → Except Str Str := fun _ => .ok (ofStr "happy")

/-- A request body asking for recommendations similar to song Alpha. -/
def bodySongAlpha : Option JVal := some (.obj [(ofStr "song", .str (ofStr "alpha"))])

/-- A request body asking for mood happy in scrambled case. -/
def bodyMoodHappy : Option JVal := some (.obj [(ofStr "mood", .str (ofStr " hAPpy"))])

/-- A raw CSV row whose mood cell is missing. -/
def rowGamma : RawRow Unit := ⟨ofStr "Gamma", none, uFeats⟩

/-- A one-row raw dataset. -/
def rowsW : List (RawRow Unit) := [rowGamma]

/-! Helper lemmas about the character-level normalization. -/

lemma lowerChar_lowerChar (c : Nat) : lowerChar (lowerChar c) = lowerChar c := by
  unfold lowerChar
  split_ifs <;> omega

lemma upperChar_lowerChar (c : Nat) : upperChar (lowerChar c) = upperChar c := by
  unfold upperChar lowerChar
  split_ifs <;> omega

lemma map_lowerChar_lowerChar (cs : List Nat) :
    cs.map (fun c => lowerChar (lowerChar c)) = cs.map lowerChar := by
  induction cs with
  | nil => rfl
  | cons c cs ih => simp [ih, lowerChar_lowerChar]

lemma normalizeDatasetMood_eq_query (s : Str) :
    normalizeDatasetMood s = normalizeMoodQuery s := by
  unfold normalizeDatasetMood normalizeMoodQuery pyLower
  cases h : pyStrip s with
  | nil => rfl
  | cons c cs =>
    simp only [List.map_cons, pyCapitalize, upperChar_lowerChar, List.map_map]
    rw [show (lowerChar ∘ lowerChar) = fun c => lowerChar (lowerChar c) from rfl,
      map_lowerChar_lowerChar]

/-! Helper lemmas relating the full casing model to the ASCII model on
ASCII input. -/

lemma lowerChar_lt (c : Nat) (h : c < 128) : lowerChar c < 128 := by
  unfold lowerChar
  split_ifs <;> omega

lemma pyStrip_subset (s : Str) : pyStrip s ⊆ s := by
  intro c hc
  simp only [pyStrip, List.mem_reverse] at hc
  have h1 := (List.dropWhile_sublist isSpace).subset hc
  rw [List.mem_reverse] at h1
  exact (List.dropWhile_sublist isSpace).subset h1

lemma lowerCharFull_ascii (c : Nat) (h : c < 128) :
    lowerCharFull c = [lowerChar c] := by
  unfold lowerCharFull lowerChar
  split_ifs <;> first | rfl | omega

lemma titleChar_ascii (c : Nat) (h : c < 128) : titleChar c = upperChar c := by
  unfold titleChar
  rw [if_neg (by omega)]

lemma pyLowerFull_ascii : ∀ t : Str, (∀ c ∈ t, c < 128) →
    pyLowerFull t = pyLower t := by
  intro t
  induction t with
  | nil => intro _; rfl
  | cons c cs ih =>
    intro h
    have hc : c < 128 := h c (List.mem_cons_self c cs)
    have hcs : ∀ a ∈ cs, a < 128 := fun a ha => h a (List.mem_cons_of_mem c ha)
    simp only [pyLowerFull, pyLower, List.map_cons, lowerCharFull_ascii c hc,
      ih hcs]
    rfl

lemma pyCapitalizeFull_ascii : ∀ t : Str, (∀ c ∈ t, c < 128) →
    pyCapitalizeFull t = pyCapitalize t := by
  intro t
  cases t with
  | nil => intro _; rfl
  | cons c cs =>
    intro h
    have hc : c < 128 := h c (List.mem_cons_self c cs)
    have hcs : ∀ a ∈ cs, a < 128 := fun a ha => h a (List.mem_cons_of_mem c ha)
    simp only [pyCapitalizeFull, pyCapitalize, titleChar_ascii c hc,
      pyLowerFull_ascii cs hcs]
    rfl

/-! Helper lemmas about the mood vocabulary. -/

lemma mem_insertSorted (a m : Str) (l : List Str) :
    a ∈ insertSorted m l ↔ a = m ∨ a ∈ l := by
  induction l with
  | nil => simp [insertSorted]
  | cons x xs ih =>
    unfold insertSorted
    split_ifs with hle
    · simp
    · simp only [List.mem_cons, ih]
      tauto

lemma mem_sortStrs (a : Str) (l : List Str) : a ∈ sortStrs l ↔ a ∈ l := by
  induction l with
  | nil => simp [sortStrs]
  | cons x xs ih => simp [sortStrs, mem_insertSorted, ih]

lemma mem_uniqueMoods (a : Str) (l : List Str) : a ∈ uniqueMoods l ↔ a ∈ l := by
  induction l with
  | nil => simp [uniqueMoods]
  | cons x xs ih =>
    by_cases hx : x ∈ xs
    · simp only [uniqueMoods, if_pos hx, ih, List.mem_cons]
      constructor
      · exact fun h => Or.inr h
      · rintro (rfl | h)
        · exact hx
        · exact h
    · simp [uniqueMoods, if_neg hx, ih]

lemma mem_availableMoods {F : Type} (df : List (Song F)) (m : Str) :
    m ∈ availableMoods df ↔ ∃ s ∈ df, s.mood = m := by
  simp [availableMoods, mem_sortStrs, mem_uniqueMoods, List.mem_map]

/-! Helper lemmas about filtering and first matches. -/

lemma head?_filter_eq_find? {α : Type} (p : α → Bool) (l : List α) :
    (l.filter p).head? = l.find? p := by
  induction l with
  | nil => rfl
  | cons x xs ih =>
    by_cases hx : p x
    · simp [List.filter_cons, hx, List.find?_cons_of_pos]
    · simp only [List.filter_cons, if_neg hx, Bool.not_eq_true] at *
      rw [List.find?_cons_of_neg _ (by simp [hx]), ih]

/-! Equation lemmas for the two handlers, one per outcome of the field
extraction. -/

lemma recommend_mood_error {F : Type} (sample : Sampler F) (df : List (Song F))
    (r : Nat) {body : Option JVal} {e : PyExn} (hm : moodInput? body = .error e) :
    recommend_songs_by_mood sample df r body = .error e := by
  unfold recommend_songs_by_mood
  rw [hm]

lemma recommend_mood_of_ok {F : Type} (sample : Sampler F) (df : List (Song F))
    (r : Nat) {body : Option JVal} {m : Str} (hm : moodInput? body = .ok m) :
    recommend_songs_by_mood sample df r body =
      (if m = [] then .ok ⟨400, errBody msgMoodRequired⟩
       else if m ∉ availableMoods df then .ok ⟨404, errBody (msgMoodNotFound m)⟩
       else if (moodPool df m).isEmpty then .ok ⟨404, errBody (msgNoSongs m)⟩
       else .ok ⟨200, .obj [(ofStr "mood", .str m),
         (ofStr "songs", .arr ((samplingStep sample (moodPool df m) r).map
           (fun s => .str s.song_name)))]⟩) := by
  unfold recommend_songs_by_mood
  rw [hm]

lemma recommend_song_error {F : Type} (sample : Sampler F)
    (predict : Features F → Except Str Str) (df : List (Song F)) (r : Nat)
    {body : Option JVal} {e : PyExn} (hs : songInput? body = .error e) :
    recommend_songs_by_song sample predict df r body = .error e := by
  unfold recommend_songs_by_song
  rw [hs]

lemma recommend_song_of_ok {F : Type} (sample : Sampler F)
    (predict : Features F → Except Str Str) (df : List (Song F)) (r : Nat)
    {body : Option JVal} {s : Str} (hs : songInput? body = .ok s) :
    recommend_songs_by_song sample predict df r body =
      (if s = [] then .ok ⟨400, errBody msgSongRequired⟩
       else
         match matchedSong? df s with
         | none => .ok ⟨404, errBody (msgSongNotFound s)⟩
         | some song_row =>
           match predict song_row.feats with
           | .error e => .ok ⟨500, errBody (msgPredictFailed e)⟩
           | .ok rawLabel =>
             if (songPool df (normalizeClassifierLabel rawLabel) s).isEmpty then
               .ok ⟨404, errBody (msgNoRecs (normalizeClassifierLabel rawLabel))⟩
             else
               .ok ⟨200, .obj [(ofStr "song_input", .str s),
                 (ofStr "predicted_mood", .str (normalizeClassifierLabel rawLabel)),
                 (ofStr "recommendations", .arr
                   ((samplingStep sample
                       (songPool df (normalizeClassifierLabel rawLabel) s) r).map
                     (fun x => .str x.song_name)))]⟩) := by
  unfold recommend_songs_by_song
  rw [hs]

lemma recommend_song_of_matched {F : Type} (sample : Sampler F)
    (predict : Features F → Except Str Str) (df : List (Song F)) (r : Nat)
    {body : Option JVal} {s : Str} {song_row : Song F}
    (hs : songInput? body = .ok s) (h1 : ¬s = [])
    (hmat : matchedSong? df s = some song_row) :
    recommend_songs_by_song sample predict df r body =
      (match predict song_row.feats with
       | .error e => .ok ⟨500, errBody (msgPredictFailed e)⟩
       | .ok rawLabel =>
         if (songPool df (normalizeClassifierLabel rawLabel) s).isEmpty then
           .ok ⟨404, errBody (msgNoRecs (normalizeClassifierLabel rawLabel))⟩
         else
           .ok ⟨200, .obj [(ofStr "song_input", .str s),
             (ofStr "predicted_mood", .str (normalizeClassifierLabel rawLabel)),
             (ofStr "recommendations", .arr
               ((samplingStep sample
                   (songPool df (normalizeClassifierLabel rawLabel) s) r).map
                 (fun x => .str x.song_name)))]⟩) := by
  rw [recommend_song_of_ok sample predict df r hs, if_neg h1, hmat]

lemma recommend_song_of_predicted {F : Type} (sample : Sampler F)
    (predict : Features F → Except Str Str) (df : List (Song F)) (r : Nat)
    {body : Option JVal} {s : Str} {song_row : Song F} {lbl : Str}
    (hs : songInput? body = .ok s) (h1 : ¬s = [])
    (hmat : matchedSong? df s = some song_row)
    (hp : predict song_row.feats = .ok lbl) :
    recommend_songs_by_song sample predict df r body =
      (if (songPool df (normalizeClassifierLabel lbl) s).isEmpty then
         .ok ⟨404, errBody (msgNoRecs (normalizeClassifierLabel lbl))⟩
       else
         .ok ⟨200, .obj [(ofStr "song_input", .str s),
           (ofStr "predicted_mood", .str (normalizeClassifierLabel lbl)),
           (ofStr "recommendations", .arr
             ((samplingStep sample
                 (songPool df (normalizeClassifierLabel lbl) s) r).map
               (fun x => .str x.song_name)))]⟩) := by
  rw [recommend_song_of_matched sample predict df r hs h1 hmat, hp]

lemma recommend_song_of_predict_error {F : Type} (sample : Sampler F)
    (predict : Features F → Except Str Str) (df : List (Song F)) (r : Nat)
    {body : Option JVal} {s : Str} {song_row : Song F} {e : Str}
    (hs : songInput? body = .ok s) (h1 : ¬s = [])
    (hmat : matchedSong? df s = some song_row)
    (hp : predict song_row.feats = .error e) :
    recommend_songs_by_song sample predict df r body =
      .ok ⟨500, errBody (msgPredictFailed e)⟩ := by
  rw [recommend_song_of_matched sample predict df r hs h1 hmat, hp]

lemma recommend_song_of_unmatched {F : Type} (sample : Sampler F)
    (predict : Features F → Except Str Str) (df : List (Song F)) (r : Nat)
    {body : Option JVal} {s : Str}
    (hs : songInput? body = .ok s) (h1 : ¬s = [])
    (hmat : matchedSong? df s = none) :
    recommend_songs_by_song sample predict df r body =
      .ok ⟨404, errBody (msgSongNotFound s)⟩ := by
  rw [recommend_song_of_ok sample predict df r hs, if_neg h1, hmat]

/-! Inversion lemmas for the 200 responses. -/

lemma recommend_mood_ok200 {F : Type} {sample : Sampler F} {df : List (Song F)}
    {r : Nat} {body : Option JVal} {resp : HttpResp}
    (h : recommend_songs_by_mood sample df r body = .ok resp)
    (hst : resp.status = 200) :
    ∃ m, moodInput? body = .ok m ∧ m ≠ [] ∧ m ∈ availableMoods df ∧
      ¬(moodPool df m).isEmpty ∧
      resp = ⟨200, .obj [(ofStr "mood", .str m),
        (ofStr "songs", .arr ((samplingStep sample (moodPool df m) r).map
          (fun s => .str s.song_name)))]⟩ := by
  cases hm : moodInput? body with
  | error e =>
    rw [recommend_mood_error sample df r hm] at h
    exact absurd h (by simp)
  | ok m =>
    rw [recommend_mood_of_ok sample df r hm] at h
    split_ifs at h with h1 h2 h3
    · injection h with h'
      subst h'
      simp at hst
    · injection h with h'
      subst h'
      simp at hst
    · injection h with h'
      subst h'
      exact ⟨m, rfl, h1, h2, h3, rfl⟩
    · injection h with h'
      subst h'
      simp at hst

lemma recommend_song_ok200 {F : Type} {sample : Sampler F}
    {predict : Features F → Except Str Str} {df : List (Song F)} {r : Nat}
    {body : Option JVal} {resp : HttpResp}
    (h : recommend_songs_by_song sample predict df r body = .ok resp)
    (hst : resp.status = 200) :
    ∃ s rec lbl, songInput? body = .ok s ∧ s ≠ [] ∧
      matchedSong? df s = some rec ∧ predict rec.feats = .ok lbl ∧
      ¬(songPool df (normalizeClassifierLabel lbl) s).isEmpty ∧
      resp = ⟨200, .obj [(ofStr "song_input", .str s),
        (ofStr "predicted_mood", .str (normalizeClassifierLabel lbl)),
        (ofStr "recommendations", .arr
          ((samplingStep sample (songPool df (normalizeClassifierLabel lbl) s) r).map
            (fun x => .str x.song_name)))]⟩ := by
  cases hs : songInput? body with
  | error e =>
    rw [recommend_song_error sample predict df r hs] at h
    exact absurd h (by simp)
  | ok s =>
    rw [recommend_song_of_ok sample predict df r hs] at h
    split_ifs at h with h1
    · injection h with h'
      subst h'
      simp at hst
    · split at h
      · rename_i hmat
        injection h with h'
        subst h'
        simp at hst
      · rename_i song_row hmat
        split at h
        · rename_i e hp
          injection h with h'
          subst h'
          simp at hst
        · rename_i rawLabel hp
          split_ifs at h with h2
          · injection h with h'
            subst h'
            simp at hst
          · injection h with h'
            subst h'
            exact ⟨s, song_row, rawLabel, rfl, h1, hmat, hp, h2, rfl⟩

/-! Properties of the concrete sampler instance. -/

lemma sampleTake_mem {F : Type} :
    ∀ (pool : List (Song F)) (k : Nat) (s : Song F),
      s ∈ sampleTake pool k → s ∈ pool :=
  fun pool k _ h => List.take_subset k pool h

lemma sampleTake_len {F : Type} :
    ∀ (pool : List (Song F)) (k : Nat), k ≤ pool.length →
      (sampleTake pool k).length = k := by
  intro pool k h
  simp only [sampleTake, List.length_take]
  omega

/-! The two 404 messages of the mood handler never coincide. -/

lemma msgNoSongs_ne_msgMoodNotFound (m m' : Str) :
    msgNoSongs m ≠ msgMoodNotFound m' := by
  intro h
  have h1 : (msgNoSongs m).head? = some 78 := rfl
  have h2 : (msgMoodNotFound m').head? = some 77 := rfl
  rw [h, h2] at h1
  simp at h1

/-! Membership in the candidate pools. -/

lemma mem_moodPool {F : Type} {df : List (Song F)} {m : Str} {s : Song F} :
    s ∈ moodPool df m ↔ s ∈ df ∧ s.mood = m := by
  simp [moodPool, List.mem_filter]

lemma mem_songPool {F : Type} {df : List (Song F)} {pm q : Str} {s : Song F} :
    s ∈ songPool df pm q ↔
      s ∈ df ∧ s.mood = pm ∧ pyLower s.song_name ≠ pyLower q := by
  simp [songPool, List.mem_filter, and_assoc]

lemma moodPool_not_isEmpty_of_mem {F : Type} {df : List (Song F)} {m : Str}
    (h : m ∈ availableMoods df) : ¬(moodPool df m).isEmpty := by
  rw [mem_availableMoods] at h
  obtain ⟨s, hs, hm⟩ := h
  have hmem : s ∈ moodPool df m := mem_moodPool.mpr ⟨hs, hm⟩
  intro he
  rw [List.isEmpty_iff] at he
  simp [he] at hmem

/-! Field extraction on degenerate bodies. -/

lemma moodInput_obj_missing (kvs : List (Str × JVal))
    (hfind : kvs.find? (fun kv => kv.1 == ofStr "mood") = none) :
    moodInput? (some (.obj kvs)) = .ok [] := by
  cases kvs with
  | nil => rfl
  | cons kv rest =>
    simp [moodInput?, jsonOrEmpty, truthy, dictGet, hfind, normalizeMoodQuery,
      pyStrip, pyCapitalize]

lemma songInput_obj_missing (kvs : List (Str × JVal))
    (hfind : kvs.find? (fun kv => kv.1 == ofStr "song") = none) :
    songInput? (some (.obj kvs)) = .ok [] := by
  cases kvs with
  | nil => rfl
  | cons kv rest =>
    simp [songInput?, jsonOrEmpty, truthy, dictGet, hfind, pyStrip]

/-! Claim theorems. -/

/-- Counterexample refuting claim C4 as stated: under the full Unicode
casing of Python str.lower and str.capitalize, the dataset site (strip,
lower, capitalize) and the query site (strip, capitalize) disagree on
the one-character input U+0130, Latin capital letter I with dot above:
lowering it yields U+0069 U+0307, so the dataset site produces
U+0049 U+0307 while the query site titlecases U+0130 to itself. -/
theorem c4_counterexample :
    normalizeDatasetMoodFull [304] = [73, 775] ∧
    normalizeMoodQueryFull [304] = [304] ∧
    normalizeDatasetMoodFull [304] ≠ normalizeMoodQueryFull [304] := by
  decide

/-- Claim C4 (amended): restricted to inputs made of ASCII code points,
the three normalization sites, dataset mood column at load, user-supplied
mood query, and decoded classifier output, produce the same canonical
string; on general Unicode input the dataset site and the query and
classifier sites can disagree, as at U+0130. -/
theorem c4_normalization_sites_agree_ascii (s : Str) (h : ∀ c ∈ s, c < 128) :
    normalizeDatasetMoodFull s = normalizeMoodQueryFull s ∧
    normalizeMoodQueryFull s = normalizeClassifierLabelFull s := by
  have hstrip : ∀ c ∈ pyStrip s, c < 128 := fun c hc => h c (pyStrip_subset s hc)
  have hlow : ∀ c ∈ pyLower (pyStrip s), c < 128 := by
    intro c hc
    simp only [pyLower, List.mem_map] at hc
    obtain ⟨a, ha, rfl⟩ := hc
    exact lowerChar_lt a (hstrip a ha)
  constructor
  · unfold normalizeDatasetMoodFull normalizeMoodQueryFull
    rw [pyLowerFull_ascii (pyStrip s) hstrip,
      pyCapitalizeFull_ascii (pyLower (pyStrip s)) hlow,
      pyCapitalizeFull_ascii (pyStrip s) hstrip]
    exact normalizeDatasetMood_eq_query s
  · rfl

/-- Witness for the amended C4 on a concrete ASCII string. -/
theorem c4_normalization_sites_agree_ascii_witness :
    (∀ c ∈ ofStr " hAPpy", c < 128) ∧
    (normalizeDatasetMoodFull (ofStr " hAPpy") =
        normalizeMoodQueryFull (ofStr " hAPpy") ∧
      normalizeMoodQueryFull (ofStr " hAPpy") =
        normalizeClassifierLabelFull (ofStr " hAPpy")) :=
  ⟨by decide, c4_normalization_sites_agree_ascii (ofStr " hAPpy") (by decide)⟩

/-- Claim C9: after load and normalization every dataset record carries a
total (non-null) mood string, and every record whose original mood cell
was missing or unparseable carries the literal string Nan. -/
theorem c9_missing_mood_becomes_nan {F : Type} (rows : List (RawRow F))
    (rec : Song F) (h : rec ∈ loadDataset rows) :
    ∃ row, row ∈ rows ∧ rec = loadRow row ∧
      rec.mood = normalizeDatasetMood (pyStrOfCell row.mood?) ∧
      (row.mood? = none → rec.mood = ofStr "Nan") := by
  simp only [loadDataset, List.mem_map] at h
  obtain ⟨row, hrow, heq⟩ := h
  subst heq
  refine ⟨row, hrow, rfl, rfl, ?_⟩
  intro hnone
  have hm : (loadRow row).mood = normalizeDatasetMood (pyStrOfCell row.mood?) := rfl
  rw [hm, hnone]
  decide

/-- Witness for C9 on a concrete one-row dataset with a missing mood
cell. -/
theorem c9_missing_mood_becomes_nan_witness :
    loadRow rowGamma ∈ loadDataset rowsW ∧
    ∃ row, row ∈ rowsW ∧ loadRow rowGamma = loadRow row ∧
      (loadRow rowGamma).mood = normalizeDatasetMood (pyStrOfCell row.mood?) ∧
      (row.mood? = none → (loadRow rowGamma).mood = ofStr "Nan") :=
  ⟨by decide, c9_missing_mood_becomes_nan rowsW (loadRow rowGamma) (by decide)⟩

/-- Claim C6: the sampling step is a pure function of the candidate pool
and the draw size; two runs whose unseeded draws give the same count
produce the same sampled sequence, and consequently the two handlers give
identical responses when the capped count agrees. -/
theorem c6_sampling_deterministic_given_k {F : Type} (sample : Sampler F)
    (pool : List (Song F)) (r₁ r₂ : Nat)
    (hk : min r₁ pool.length = min r₂ pool.length) :
    samplingStep sample pool r₁ = samplingStep sample pool r₂ ∧
    (∀ (df : List (Song F)) (body : Option JVal),
      (∀ m, moodInput? body = .ok m → moodPool df m = pool) →
      recommend_songs_by_mood sample df r₁ body =
        recommend_songs_by_mood sample df r₂ body) ∧
    (∀ (predict : Features F → Except Str Str) (df : List (Song F))
       (body : Option JVal) (s : Str) (song_row : Song F) (lbl : Str),
      songInput? body = .ok s → s ≠ [] → matchedSong? df s = some song_row →
      predict song_row.feats = .ok lbl →
      songPool df (normalizeClassifierLabel lbl) s = pool →
      recommend_songs_by_song sample predict df r₁ body =
        recommend_songs_by_song sample predict df r₂ body) := by
  refine ⟨?_, ?_, ?_⟩
  · simp only [samplingStep]
    rw [hk]
  · intro df body hpool
    cases hm : moodInput? body with
    | error e =>
      rw [recommend_mood_error sample df r₁ hm, recommend_mood_error sample df r₂ hm]
    | ok m =>
      have hpm := hpool m hm
      rw [recommend_mood_of_ok sample df r₁ hm, recommend_mood_of_ok sample df r₂ hm]
      simp only [samplingStep]
      rw [hpm, hk]
  · intro predict df body s song_row lbl hs h1 hmat hp hpe
    rw [recommend_song_of_predicted sample predict df r₁ hs h1 hmat hp,
      recommend_song_of_predicted sample predict df r₂ hs h1 hmat hp]
    simp only [samplingStep]
    rw [hpe, hk]

/-- Witness for C6 on a one-song pool with draws 5 and 7, both capped to
count 1. -/
theorem c6_sampling_deterministic_given_k_witness :
    min 5 ([songAlpha].length) = min 7 ([songAlpha].length) ∧
    samplingStep (F := Unit) sampleTake [songAlpha] 5 =
      samplingStep (F := Unit) sampleTake [songAlpha] 7 :=
  ⟨by decide,
    (c6_sampling_deterministic_given_k sampleTake [songAlpha] 5 7 (by decide)).1⟩

/-- Claim C8: the record fed to the classifier is the first record, in
original row order, whose song name matches the query case-insensitively:
the handler match equals List.find?, and the handler response depends on
the classifier only through its value on the matched record. -/
theorem c8_first_match_wins {F : Type} (df : List (Song F)) (q : Str) :
    matchedSong? df q = df.find? (fun s => pyLower s.song_name == pyLower q) ∧
    (∀ (sample : Sampler F) (r : Nat) (body : Option JVal) (s : Str)
       (song_row : Song F) (predict₁ predict₂ : Features F → Except Str Str),
      songInput? body = .ok s → s ≠ [] → matchedSong? df s = some song_row →
      predict₁ song_row.feats = predict₂ song_row.feats →
      recommend_songs_by_song sample predict₁ df r body =
        recommend_songs_by_song sample predict₂ df r body) := by
  constructor
  · exact head?_filter_eq_find? (fun s => pyLower s.song_name == pyLower q) df
  · intro sample r body s song_row predict₁ predict₂ hs h1 hmat hpp
    rw [recommend_song_of_matched sample predict₁ df r hs h1 hmat,
      recommend_song_of_matched sample predict₂ df r hs h1 hmat, hpp]

/-- Witness for C8: on the concrete dataset a lowercase query matches the
record named Beta, in agreement with List.find?. -/
theorem c8_first_match_wins_witness :
    matchedSong? dfW (ofStr "beta") = some songBeta ∧
    matchedSong? dfW (ofStr "beta") =
      dfW.find? (fun s => pyLower s.song_name == pyLower (ofStr "beta")) :=
  ⟨by decide, (c8_first_match_wins dfW (ofStr "beta")).1⟩

/-- Claim C10: a body that is absent, unparseable, JSON null, or a JSON
object lacking the required field is coerced to the empty object before
field access and yields the same 400 response as an empty field value,
for both endpoints. -/
theorem c10_degenerate_bodies_coerced {F : Type} (sample : Sampler F)
    (predict : Features F → Except Str Str) (df : List (Song F)) (r : Nat) :
    recommend_songs_by_mood sample df r none =
      .ok ⟨400, errBody msgMoodRequired⟩ ∧
    recommend_songs_by_mood sample df r (some .null) =
      .ok ⟨400, errBody msgMoodRequired⟩ ∧
    (∀ kvs, kvs.find? (fun kv => kv.1 == ofStr "mood") = none →
      recommend_songs_by_mood sample df r (some (.obj kvs)) =
        .ok ⟨400, errBody msgMoodRequired⟩) ∧
    recommend_songs_by_mood sample df r (some (.obj [(ofStr "mood", .str [])])) =
      .ok ⟨400, errBody msgMoodRequired⟩ ∧
    recommend_songs_by_song sample predict df r none =
      .ok ⟨400, errBody msgSongRequired⟩ ∧
    recommend_songs_by_song sample predict df r (some .null) =
      .ok ⟨400, errBody msgSongRequired⟩ ∧
    (∀ kvs, kvs.find? (fun kv => kv.1 == ofStr "song") = none →
      recommend_songs_by_song sample predict df r (some (.obj kvs)) =
        .ok ⟨400, errBody msgSongRequired⟩) ∧
    recommend_songs_by_song sample predict df r (some (.obj [(ofStr "song", .str [])])) =
      .ok ⟨400, errBody msgSongRequired⟩ := by
  refine ⟨?_, ?_, ?_, ?_, ?_, ?_, ?_, ?_⟩
  · rw [recommend_mood_of_ok sample df r (show moodInput? none = .ok [] from rfl),
      if_pos rfl]
  · rw [recommend_mood_of_ok sample df r
      (show moodInput? (some .null) = .ok [] from rfl), if_pos rfl]
  · intro kvs hfind
    rw [recommend_mood_of_ok sample df r (moodInput_obj_missing kvs hfind),
      if_pos rfl]
  · rw [recommend_mood_of_ok sample df r
      (show moodInput? (some (.obj [(ofStr "mood", .str [])])) = .ok [] from rfl),
      if_pos rfl]
  · rw [recommend_song_of_ok sample predict df r
      (show songInput? none = .ok [] from rfl), if_pos rfl]
  · rw [recommend_song_of_ok sample predict df r
      (show songInput? (some .null) = .ok [] from rfl), if_pos rfl]
  · intro kvs hfind
    rw [recommend_song_of_ok sample predict df r (songInput_obj_missing kvs hfind),
      if_pos rfl]
  · rw [recommend_song_of_ok sample predict df r
      (show songInput? (some (.obj [(ofStr "song", .str [])])) = .ok [] from rfl),
      if_pos rfl]

/-- Witness for C10 on the concrete dataset: an absent body and an object
without the mood field both give the 400 response. -/
theorem c10_degenerate_bodies_coerced_witness :
    recommend_songs_by_mood sampleTake dfW 5 none =
      .ok ⟨400, errBody msgMoodRequired⟩ ∧
    recommend_songs_by_mood sampleTake dfW 5 (some (.obj [(ofStr "other", .null)])) =
      .ok ⟨400, errBody msgMoodRequired⟩ :=
  ⟨(c10_degenerate_bodies_coerced sampleTake predictHappy dfW 5).1,
    (c10_degenerate_bodies_coerced sampleTake predictHappy dfW 5).2.2.1
      [(ofStr "other", .null)] rfl⟩

/-- Counterexample refuting claim C5 as stated: a request whose body is
the JSON number 1, and one whose song field holds a JSON number, raise an
AttributeError that escapes the handler instead of being converted to a
JSON error response. -/
theorem c5_counterexample :
    recommend_songs_by_mood (F := Unit) sampleTake dfW 5 (some (.num 1)) =
      .error .attributeError ∧
    recommend_songs_by_song (F := Unit) sampleTake predictHappy dfW 5
      (some (.obj [(ofStr "song", .num 7)])) = .error .attributeError :=
  ⟨rfl, rfl⟩

/-- Claim C5 (amended): for every request on which the field access of
the handler succeeds, that is, the body coerces to an object whose
required field, if present, is a string, the handler returns a response
rather than raising, and every non-200 response has status 400, 404 or
500 and a JSON body of shape error-message. -/
theorem c5_amended_errors_converted {F : Type} (sample : Sampler F)
    (predict : Features F → Except Str Str) (df : List (Song F)) (r : Nat)
    (body : Option JVal) :
    (∀ m, moodInput? body = .ok m →
      ∃ resp, recommend_songs_by_mood sample df r body = .ok resp ∧
        (resp.status = 200 ∨ ((resp.status = 400 ∨ resp.status = 404) ∧
          ∃ msg, resp.body = errBody msg))) ∧
    (∀ s, songInput? body = .ok s →
      ∃ resp, recommend_songs_by_song sample predict df r body = .ok resp ∧
        (resp.status = 200 ∨
          ((resp.status = 400 ∨ resp.status = 404 ∨ resp.status = 500) ∧
            ∃ msg, resp.body = errBody msg))) := by
  constructor
  · intro m hm
    rw [recommend_mood_of_ok sample df r hm]
    split_ifs with h1 h2 h3
    · exact ⟨_, rfl, Or.inr ⟨Or.inl rfl, _, rfl⟩⟩
    · exact ⟨_, rfl, Or.inr ⟨Or.inr rfl, _, rfl⟩⟩
    · exact ⟨_, rfl, Or.inl rfl⟩
    · exact ⟨_, rfl, Or.inr ⟨Or.inr rfl, _, rfl⟩⟩
  · intro s hs
    by_cases h1 : s = []
    · rw [recommend_song_of_ok sample predict df r hs, if_pos h1]
      exact ⟨_, rfl, Or.inr ⟨Or.inl rfl, _, rfl⟩⟩
    · cases hmat : matchedSong? df s with
      | none =>
        rw [recommend_song_of_unmatched sample predict df r hs h1 hmat]
        exact ⟨_, rfl, Or.inr ⟨Or.inr (Or.inl rfl), _, rfl⟩⟩
      | some song_row =>
        cases hp : predict song_row.feats with
        | error e =>
          rw [recommend_song_of_predict_error sample predict df r hs h1 hmat hp]
          exact ⟨_, rfl, Or.inr ⟨Or.inr (Or.inr rfl), _, rfl⟩⟩
        | ok lbl =>
          rw [recommend_song_of_predicted sample predict df r hs h1 hmat hp]
          split_ifs with h2
          · exact ⟨_, rfl, Or.inr ⟨Or.inr (Or.inl rfl), _, rfl⟩⟩
          · exact ⟨_, rfl, Or.inl rfl⟩

/-- Witness for the amended C5 on a concrete well-formed request. -/
theorem c5_amended_errors_converted_witness :
    moodInput? bodyMoodHappy = .ok (ofStr "Happy") ∧
    (∃ resp, recommend_songs_by_mood sampleTake dfW 5 bodyMoodHappy = .ok resp ∧
      (resp.status = 200 ∨ ((resp.status = 400 ∨ resp.status = 404) ∧
        ∃ msg, resp.body = errBody msg))) :=
  ⟨rfl,
    (c5_amended_errors_converted sampleTake predictHappy dfW 5 bodyMoodHappy).1
      (ofStr "Happy") rfl⟩

/-- Claim C1: in every 200 response of the song endpoint, every
recommended name belongs to a dataset record whose canonical mood equals
the predicted mood of the response, and no recommended name equals the
queried song name under case-insensitive comparison. -/
theorem c1_song_recommendations_sound {F : Type} (sample : Sampler F)
    (hmem : ∀ (pool : List (Song F)) (k : Nat) (s : Song F),
      s ∈ sample pool k → s ∈ pool)
    (predict : Features F → Except Str Str) (df : List (Song F)) (r : Nat)
    (body : Option JVal) (si pm : Str) (recs : List JVal)
    (h : recommend_songs_by_song sample predict df r body =
      .ok ⟨200, .obj [(ofStr "song_input", .str si),
        (ofStr "predicted_mood", .str pm),
        (ofStr "recommendations", .arr recs)]⟩) :
    ∀ v ∈ recs, ∃ name, v = .str name ∧
      (∃ rec ∈ df, rec.song_name = name ∧ rec.mood = pm) ∧
      pyLower name ≠ pyLower si := by
  obtain ⟨s, rec0, lbl, hs, hne, hmat, hp, hpool, hresp⟩ := recommend_song_ok200 h rfl
  simp only [HttpResp.mk.injEq, JVal.obj.injEq, List.cons.injEq, Prod.mk.injEq,
    JVal.str.injEq, JVal.arr.injEq, true_and, and_true] at hresp
  obtain ⟨hsi, hpm, hrecs⟩ := hresp
  subst hsi
  subst hpm
  intro v hv
  rw [hrecs] at hv
  simp only [List.mem_map] at hv
  obtain ⟨x, hx, rfl⟩ := hv
  simp only [samplingStep] at hx
  have hxpool := hmem _ _ _ hx
  rw [mem_songPool] at hxpool
  obtain ⟨hxdf, hxmood, hxname⟩ := hxpool
  exact ⟨x.song_name, rfl, ⟨x, hxdf, rfl, hxmood⟩, hxname⟩

/-- Witness for C1 on a concrete run: querying alpha predicts Happy and
recommends only Beta. -/
theorem c1_song_recommendations_sound_witness :
    (∀ (pool : List (Song Unit)) (k : Nat) (s : Song Unit),
      s ∈ sampleTake pool k → s ∈ pool) ∧
    (∀ v ∈ [JVal.str (ofStr "Beta")], ∃ name, v = .str name ∧
      (∃ rec ∈ dfW, rec.song_name = name ∧ rec.mood = ofStr "Happy") ∧
      pyLower name ≠ pyLower (ofStr "alpha")) :=
  ⟨sampleTake_mem,
    c1_song_recommendations_sound sampleTake sampleTake_mem predictHappy dfW 5
      bodySongAlpha (ofStr "alpha") (ofStr "Happy") [JVal.str (ofStr "Beta")] rfl⟩

/-- Claim C2: in every 200 response of either endpoint, the number of
returned song names lies between min 5 N and min 8 N, where N is the size
of the candidate pool, and equals N whenever N is below 5. -/
theorem c2_sample_count_bounds {F : Type} (sample : Sampler F)
    (hlen : ∀ (pool : List (Song F)) (k : Nat), k ≤ pool.length →
      (sample pool k).length = k)
    (predict : Features F → Except Str Str) (df : List (Song F)) (r : Nat)
    (hr5 : 5 ≤ r) (hr8 : r ≤ 8) (bodyM bodyS : Option JVal) :
    (∀ m songs, recommend_songs_by_mood sample df r bodyM =
        .ok ⟨200, .obj [(ofStr "mood", .str m), (ofStr "songs", .arr songs)]⟩ →
      min 5 (moodPool df m).length ≤ songs.length ∧
      songs.length ≤ min 8 (moodPool df m).length ∧
      ((moodPool df m).length < 5 → songs.length = (moodPool df m).length)) ∧
    (∀ si pm recs, recommend_songs_by_song sample predict df r bodyS =
        .ok ⟨200, .obj [(ofStr "song_input", .str si),
          (ofStr "predicted_mood", .str pm),
          (ofStr "recommendations", .arr recs)]⟩ →
      min 5 (songPool df pm si).length ≤ recs.length ∧
      recs.length ≤ min 8 (songPool df pm si).length ∧
      ((songPool df pm si).length < 5 →
        recs.length = (songPool df pm si).length)) := by
  constructor
  · intro m songs h
    obtain ⟨m0, hm0, hne, hmem0, hpool0, hresp⟩ := recommend_mood_ok200 h rfl
    simp only [HttpResp.mk.injEq, JVal.obj.injEq, List.cons.injEq, Prod.mk.injEq,
      JVal.str.injEq, JVal.arr.injEq, true_and, and_true] at hresp
    obtain ⟨hm, hsongs⟩ := hresp
    subst hm
    have hl : songs.length = min r (moodPool df m).length := by
      rw [hsongs, List.length_map]
      simp only [samplingStep]
      exact hlen _ _ (Nat.min_le_right _ _)
    refine ⟨?_, ?_, ?_⟩ <;> omega
  · intro si pm recs h
    obtain ⟨s, rec0, lbl, hs, hne, hmat, hp, hpool, hresp⟩ :=
      recommend_song_ok200 h rfl
    simp only [HttpResp.mk.injEq, JVal.obj.injEq, List.cons.injEq, Prod.mk.injEq,
      JVal.str.injEq, JVal.arr.injEq, true_and, and_true] at hresp
    obtain ⟨hsi, hpm, hrecs⟩ := hresp
    subst hsi
    subst hpm
    have hl : recs.length =
        min r (songPool df (normalizeClassifierLabel lbl) si).length := by
      rw [hrecs, List.length_map]
      simp only [samplingStep]
      exact hlen _ _ (Nat.min_le_right _ _)
    refine ⟨?_, ?_, ?_⟩ <;> omega

/-- Witness for C2 on a concrete run: the Happy pool has two songs and
the response returns both. -/
theorem c2_sample_count_bounds_witness :
    (∀ (pool : List (Song Unit)) (k : Nat), k ≤ pool.length →
      (sampleTake pool k).length = k) ∧ (5 : Nat) ≤ 5 ∧ (5 : Nat) ≤ 8 ∧
    (min 5 (moodPool dfW (ofStr "Happy")).length ≤
        ([JVal.str (ofStr "Alpha"), JVal.str (ofStr "Beta")] : List JVal).length ∧
      ([JVal.str (ofStr "Alpha"), JVal.str (ofStr "Beta")] : List JVal).length ≤
        min 8 (moodPool dfW (ofStr "Happy")).length ∧
      ((moodPool dfW (ofStr "Happy")).length < 5 →
        ([JVal.str (ofStr "Alpha"), JVal.str (ofStr "Beta")] : List JVal).length =
          (moodPool dfW (ofStr "Happy")).length)) :=
  ⟨sampleTake_len, by decide, by decide,
    (c2_sample_count_bounds sampleTake sampleTake_len predictHappy dfW 5
        (by decide) (by decide) bodyMoodHappy bodySongAlpha).1
      (ofStr "Happy") [JVal.str (ofStr "Alpha"), JVal.str (ofStr "Beta")] rfl⟩

/-- Claim C3: given a successful field extraction with normalized value
m, the mood endpoint answers 400 with the required-message exactly when m
is empty, and 404 with the not-found message exactly when m is nonempty
and not among the available moods. -/
theorem c3_mood_error_statuses {F : Type} (sample : Sampler F)
    (df : List (Song F)) (r : Nat) (body : Option JVal) (m : Str)
    (hm : moodInput? body = .ok m) :
    (recommend_songs_by_mood sample df r body =
        .ok ⟨400, errBody msgMoodRequired⟩ ↔ m = []) ∧
    (recommend_songs_by_mood sample df r body =
        .ok ⟨404, errBody (msgMoodNotFound m)⟩ ↔
      (m ≠ [] ∧ m ∉ availableMoods df)) := by
  rw [recommend_mood_of_ok sample df r hm]
  split_ifs with h1 h2 h3
  · constructor
    · exact iff_of_true rfl h1
    · constructor
      · intro he
        simp at he
      · rintro ⟨hne, -⟩
        exact absurd h1 hne
  · constructor
    · constructor
      · intro he
        simp at he
      · intro he
        exact absurd he h1
    · constructor
      · intro he
        simp only [Except.ok.injEq, HttpResp.mk.injEq, errBody, JVal.obj.injEq,
          List.cons.injEq, Prod.mk.injEq, JVal.str.injEq, true_and, and_true] at he
        exact absurd he (msgNoSongs_ne_msgMoodNotFound m m)
      · rintro ⟨-, hnotin⟩
        exact absurd h2 hnotin
  · constructor
    · constructor
      · intro he
        simp at he
      · intro he
        exact absurd he h1
    · constructor
      · intro he
        simp at he
      · rintro ⟨-, hnotin⟩
        exact absurd h2 hnotin
  · constructor
    · constructor
      · intro he
        simp at he
      · intro he
        exact absurd he h1
    · exact iff_of_true rfl ⟨h1, h2⟩

/-- Witness for C3 on a concrete request whose mood field normalizes to
Happy. -/
theorem c3_mood_error_statuses_witness :
    moodInput? bodyMoodHappy = .ok (ofStr "Happy") ∧
    (recommend_songs_by_mood sampleTake dfW 5 bodyMoodHappy =
        .ok ⟨400, errBody msgMoodRequired⟩ ↔ ofStr "Happy" = []) :=
  ⟨rfl,
    (c3_mood_error_statuses sampleTake dfW 5 bodyMoodHappy (ofStr "Happy") rfl).1⟩

/-- Claim C7: when the normalized mood query lies in the available moods,
the mood pool is non-empty, so the defensive no-songs 404 branch of the
mood handler is unreachable. -/
theorem c7_defensive_branch_unreachable {F : Type} (df : List (Song F))
    (body : Option JVal) (m : Str) (hm : moodInput? body = .ok m)
    (hin : m ∈ availableMoods df) :
    ¬(moodPool df m).isEmpty ∧
    ∀ (sample : Sampler F) (r : Nat),
      recommend_songs_by_mood sample df r body ≠
        .ok ⟨404, errBody (msgNoSongs m)⟩ := by
  have hpool := moodPool_not_isEmpty_of_mem hin
  refine ⟨hpool, ?_⟩
  intro sample r h
  rw [recommend_mood_of_ok sample df r hm] at h
  by_cases h1 : m = []
  · rw [if_pos h1] at h
    simp at h
  · rw [if_neg h1, if_neg (not_not_intro hin)] at h
    by_cases h3 : (moodPool df m).isEmpty
    · exact hpool h3
    · rw [if_neg h3] at h
      simp at h

/-- Witness for C7 on the concrete dataset: Happy is available and its
pool is non-empty. -/
theorem c7_defensive_branch_unreachable_witness :
    moodInput? bodyMoodHappy = .ok (ofStr "Happy") ∧
    ofStr "Happy" ∈ availableMoods dfW ∧
    ¬(moodPool dfW (ofStr "Happy")).isEmpty :=
  ⟨rfl, by decide,
    (c7_defensive_branch_unreachable dfW bodyMoodHappy (ofStr "Happy") rfl
        (by decide)).1⟩

end MoodRec
